import Mathlib

/-!
Verification of the number-guessing-game front-end core (`src/App.tsx` and
`src/api.ts`): the response-normalization functions `readBody`, `toFeedback`,
`labelFor`, and the three intent handlers `startGame`, `resetGame`,
`submitGuess` of the `App` component, shallowly embedded as pure Lean
functions over an explicit session state.

Modelling conventions for the JavaScript runtime values the code observes:

* A JSON value reached by the code is observed only through four operations:
  nullish tests (the `??` operator and optional chaining), `typeof v ===
  'string'`, strict equality with the three feedback string literals, and
  string conversion inside a template literal.  So a JSON value is modelled
  by `JVal`: a string, the JSON `null`, or `other repr` carrying the JS
  string conversion `repr` of any non-string non-null value.
* A parsed JSON body is observed only through the fields `feedback`,
  `message`, `result`, `error`, `detail`; `JsonObj` records those five as
  optional `JVal`s (`none` = property absent, i.e. `undefined`).  A JSON
  body that is not an object (a number, string, array, or JSON `null`) is
  observationally an object with all five fields absent — except a JSON
  `null` body in the error branch of `readBody`, where `j['error']` throws
  and control falls to the text fallback exactly as when parsing fails, so
  a `null` body is modelled as parse failure (`json = none`).
* `fetch` together with the body readers either yields a response
  (status/ok flag, content-type header, JSON parse outcome, raw text) or
  throws; `TResult` has the two cases, a thrown value carrying `some m`
  when it is an `Error` with message `m` and `none` otherwise.
-/

/-- The three feedback literals of `type Feedback` in `App.tsx`. -/
inductive Feedback : Type
  | TOO_HIGH : Feedback
  | TOO_LOW : Feedback
  | CORRECT : Feedback
deriving DecidableEq, Repr

/-- A JavaScript/JSON value as observed by the code: a string, the JSON
`null`, or any other value carrying its JS string conversion. -/
inductive JVal : Type
  | str : String → JVal
  | jnull : JVal
  | other : String → JVal
deriving DecidableEq, Repr

/-- The five JSON-body fields the code reads; `none` means the property is
absent (`undefined`). -/
structure JsonObj : Type where
  feedback : Option JVal
  message : Option JVal
  result : Option JVal
  error : Option JVal
  detail : Option JVal
deriving DecidableEq, Repr

/-- A raw transport response as surfaced to `readBody`: `ok` is `res.ok`
(status in 2xx), `status` is `res.status`, `contentType` the
`content-type` header (`none` when absent), `json` the outcome of
`res.json()` (`none` when parsing throws, or the body is JSON `null`),
and `text` the value of `res.text()`. -/
structure RawResponse : Type where
  ok : Bool
  status : Nat
  contentType : Option String
  json : Option JsonObj
  text : String
deriving DecidableEq, Repr

/-- The return shape of `readBody`:
`{ ok: boolean; data?: GuessResponse; text?: string; err?: string }`. -/
structure Body : Type where
  ok : Bool
  data : Option JsonObj
  text : Option String
  err : Option String
deriving DecidableEq, Repr

/-- Whether `pat` occurs as a prefix of `s`, on character lists. -/
def listHasPrefix : List Char → List Char → Bool
  | _, [] => true
  | [], _ :: _ => false
  | a :: as, b :: bs => a == b && listHasPrefix as bs

/-- Whether `pat` occurs as a contiguous sublist of `s`. -/
def listHasSub : List Char → List Char → Bool
  | [], pat => pat.isEmpty
  | c :: rest, pat => listHasPrefix (c :: rest) pat || listHasSub rest pat

/-- JS `s.includes(pat)` on strings. -/
def strIncludes (s pat : String) : Bool :=
  listHasSub s.toList pat.toList

/-- The content-type string the code works with:
`res.headers.get('content-type') || ''`. -/
def ctOf (res : RawResponse) : String :=
  res.contentType.getD ""

/-- JS nullish test on an optional value: `undefined` (`none`) and `null`
(`some JVal.jnull`) are nullish; everything else is not. -/
def nullish : Option JVal → Bool
  | none => true
  | some JVal.jnull => true
  | some (JVal.str _) => false
  | some (JVal.other _) => false

/-- JS `a ?? b`: `b` when `a` is nullish, otherwise `a`. -/
def jcoalesce (a b : Option JVal) : Option JVal :=
  if nullish a then b else a

/-- JS `typeof v === 'string' ? v : undefined`. -/
def strOnly : Option JVal → Option JVal
  | some (JVal.str s) => some (JVal.str s)
  | _ => none

/-- JS string conversion of a `JVal` inside a template literal. -/
def jvalToString : JVal → String
  | JVal.str s => s
  | JVal.jnull => "null"
  | JVal.other r => r

/-- The synthesized error text `` `HTTP ${res.status}` ``. -/
def httpText (status : Nat) : String :=
  "HTTP " ++ toString status

/-- JS `s.trim()`: drop whitespace from both ends (modelled on the
character list so the kernel can evaluate it). -/
def jsTrim (s : String) : String :=
  String.mk
    (((s.toList.dropWhile Char.isWhitespace).reverse.dropWhile
      Char.isWhitespace).reverse)

/-- JS `isBlank` from `App.tsx`: `s.trim() === ''`. -/
def isBlank (s : String) : Bool :=
  jsTrim s == ""

/-- Embedding of `readBody` (`App.tsx` lines 8–27).  On a 2xx response:
JSON content-type means the parse result becomes `data` (parse failure
yields a bare `{ ok: true }`); otherwise the trimmed text becomes `text`.
On a non-2xx response: if the content-type claims JSON and parsing
succeeds, `err` is the first non-nullish of `error`/`message`/`detail`
when that value is a string and `"HTTP <status>"` otherwise; if parsing
throws or the content-type is not JSON, `err` is the trimmed text, or
`"HTTP <status>"` when that is empty. -/
def readBody (res : RawResponse) : Body :=
  let ct := ctOf res
  if res.ok then
    if strIncludes ct "application/json" then
      match res.json with
      | some d => Body.mk true (some d) none none
      | none => Body.mk true none none none
    else
      Body.mk true none (some (jsTrim res.text)) none
  else
    if strIncludes ct "application/json" then
      match res.json with
      | some j =>
        let msg := jcoalesce j.error (jcoalesce j.message j.detail)
        let e := match msg with
          | some (JVal.str s) => s
          | _ => httpText res.status
        Body.mk false none none (some e)
      | none =>
        let t := jsTrim res.text
        Body.mk false none none (some (if t == "" then httpText res.status else t))
    else
      let t := jsTrim res.text
      Body.mk false none none (some (if t == "" then httpText res.status else t))

/-- Embedding of `toFeedback` (`App.tsx` lines 29–37): select
`data.feedback ?? (string-typed data.message) ?? (string-typed data.result)
?? text` and recognize it when it is exactly one of the three literals. -/
def toFeedback (b : Body) : Option Feedback :=
  let raw : Option JVal :=
    jcoalesce (b.data.bind (fun d => d.feedback))
      (jcoalesce (strOnly (b.data.bind (fun d => d.message)))
        (jcoalesce (strOnly (b.data.bind (fun d => d.result)))
          (b.text.map JVal.str)))
  if raw == some (JVal.str "TOO_HIGH") then some Feedback.TOO_HIGH
  else if raw == some (JVal.str "TOO_LOW") then some Feedback.TOO_LOW
  else if raw == some (JVal.str "CORRECT") then some Feedback.CORRECT
  else none

/-- Embedding of `labelFor` (`App.tsx` lines 39–41). -/
def labelFor : Feedback → String
  | Feedback.TOO_HIGH => "Too High"
  | Feedback.TOO_LOW => "Too Low"
  | Feedback.CORRECT => "Correct"

/-- The fallback raw message of `submitGuess` (`App.tsx` line 114):
`` b.text ?? (b.data?.message ?? b.data?.result ?? 'Submitted.') ``,
converted to a string by the surrounding template literal. -/
def fallbackText (b : Body) : String :=
  match b.text with
  | some t => t
  | none =>
    jvalToString
      ((jcoalesce (b.data.bind (fun d => d.message))
        (jcoalesce (b.data.bind (fun d => d.result))
          (some (JVal.str "Submitted.")))).getD (JVal.str "Submitted."))

/-- The spec's `Outcome` tagged union: a recognized feedback value, an
opaque success message, or a classified error text. -/
inductive Outcome : Type
  | feedback : Feedback → Outcome
  | message : String → Outcome
  | error : String → Outcome
deriving DecidableEq, Repr

/-- The spec's `interpret`: the composite classification the guess path
performs on a raw response — `readBody`, then on success `toFeedback`
with the `submitGuess` fallback text, and on failure the classified
error text (`App.tsx` lines 105–115). -/
def interpret (res : RawResponse) : Outcome :=
  let b := readBody res
  if b.ok then
    match toFeedback b with
    | some fb => Outcome.feedback fb
    | none => Outcome.message (fallbackText b)
  else
    Outcome.error (b.err.getD "")

example : interpret (RawResponse.mk true 200 (some "application/json")
    (some (JsonObj.mk (some (JVal.str "TOO_LOW")) none none none none)) "")
    = Outcome.feedback Feedback.TOO_LOW := by decide

example : interpret (RawResponse.mk true 200 (some "text/plain") none "  CORRECT  ")
    = Outcome.feedback Feedback.CORRECT := by decide

example : interpret (RawResponse.mk false 500 (some "application/json")
    (some (JsonObj.mk none none none (some (JVal.str "session expired")) none)) "x")
    = Outcome.error "session expired" := by decide

example : interpret (RawResponse.mk true 200 (some "application/json") none "")
    = Outcome.message "Submitted." := by decide

/-- Aggregate result of awaiting a `fetch` and reading its body: either a
raw response, or a thrown value — `exn (some m)` for an `Error` with
message `m`, `exn none` for any other thrown value. -/
inductive TResult : Type
  | resp : RawResponse → TResult
  | exn : Option String → TResult
deriving DecidableEq, Repr

/-- One of the transport requests the component can issue. -/
inductive Req : Type
  | getStart : Req
  | getReset : Req
  | submit : Int → Req
deriving DecidableEq, Repr

/-- The component's session state: the seven `useState` hooks of `App`.
`value` is the guess input field, `error`/`msg` the `lastError` /
`lastMessage` texts, `tries` the guess counter, `loading` the pending
flag. -/
structure State : Type where
  started : Bool
  value : String
  error : String
  msg : String
  tries : Nat
  loading : Bool
  finished : Bool
deriving DecidableEq, Repr

/-- The initial state of the seven hooks. -/
def initState : State :=
  State.mk false "" "" "" 0 false false

/-- The state of `startGame` at the moment the transport call is issued:
`setError(''); setMsg('')` then `setLoading(true)` (`App.tsx` lines
53–56). -/
def startBegin (s : State) : State :=
  { s with error := "", msg := "", loading := true }

/-- Completion of `startGame` from the in-flight state (`App.tsx` lines
56–69): on an ok-classified response, become started with fresh
counters; on a non-ok response the thrown `Error(b.err)` is caught and
its message stored; on any other thrown value the caught message (or
the fallback text) is stored; the `finally` clears `loading` on every
path. -/
def startResolve (s1 : State) (env : TResult) : State :=
  match env with
  | TResult.exn m => { s1 with error := m.getD "Failed to start", loading := false }
  | TResult.resp r =>
    let b := readBody r
    if b.ok then
      { s1 with
          started := true, finished := false, tries := 0, value := "",
          loading := false }
    else
      { s1 with error := b.err.getD "", loading := false }

/-- Embedding of `startGame` (`App.tsx` lines 52–70). -/
def startGame (s : State) (env : TResult) : State :=
  startResolve (startBegin s) env

/-- Embedding of `resetGame` (`App.tsx` lines 72–86): clears only
`error` before the call (never `msg`, and never touches `loading`); on
success sets the fixed reset message and zeroes the counters; on
failure stores the caught message. -/
def resetGame (s : State) (env : TResult) : State :=
  let s0 := { s with error := "" }
  match env with
  | TResult.exn m => { s0 with error := m.getD "Failed to reset" }
  | TResult.resp r =>
    let b := readBody r
    if b.ok then
      { s0 with
          msg := "Game reset. Counter set to 0.", tries := 0, value := "",
          finished := false }
    else
      { s0 with error := b.err.getD "" }

/-- The state of a valid `submitGuess` at the moment the transport call
is issued: `setError(''); setMsg('')` at entry, then `setLoading(true)`
(`App.tsx` lines 88–98). -/
def guessBegin (s : State) : State :=
  { s with error := "", msg := "", loading := true }

/-- Completion of a valid `submitGuess` from the in-flight state
(`App.tsx` lines 99–127): classify via `readBody`/`toFeedback`; on an
ok response set `finished := (fb === 'CORRECT')`, increment `tries`,
and compose the message from the label (or the fallback text); on a
non-ok response the thrown `Error(b.err)` is caught into `error`; the
`finally` clears `loading` on every path. -/
def guessResolve (s1 : State) (env : TResult) : State :=
  match env with
  | TResult.exn m => { s1 with error := m.getD "Guess failed", loading := false }
  | TResult.resp r =>
    let b := readBody r
    if b.ok then
      let fb := toFeedback b
      let newTries := s1.tries + 1
      let m := match fb with
        | some f => labelFor f ++ ". Total guess " ++ toString newTries
        | none => fallbackText b ++ ". Total guess " ++ toString newTries
      { s1 with
          finished := fb == some Feedback.CORRECT, tries := newTries,
          msg := m, value := "", loading := false }
    else
      { s1 with error := b.err.getD "", loading := false }

/-- Embedding of `submitGuess` (`App.tsx` lines 88–128), parameterized by
`num`, the semantics of the JS expression `Number(value)` restricted to
`Number.isInteger`: `num v = some n` when `Number(v)` is the integer
`n`, and `none` when it is `NaN` or a non-integral number.  Returns the
final state together with the list of transport requests issued. -/
def submitGuess (num : String → Option Int) (s : State) (env : TResult) :
    State × List Req :=
  let s0 := { s with error := "", msg := "" }
  if isBlank s0.value then
    ({ s0 with error := "Please enter a number" }, [])
  else
    match num s0.value with
    | none => ({ s0 with error := "Enter an integer between 0 and 1000" }, [])
    | some n =>
      if n < 0 || n > 1000 then
        ({ s0 with error := "Enter an integer between 0 and 1000" }, [])
      else
        (guessResolve (guessBegin s) env, [Req.submit n])

/-- A user-visible event driving the component: one of the three intents
(with the transport's answer) or typing into the input field
(`onChange` / `setValue`). -/
inductive Event : Type
  | estart : TResult → Event
  | ereset : TResult → Event
  | einput : String → Event
  | eguess : TResult → Event
deriving DecidableEq, Repr

/-- One step of the component: dispatch an event to its handler. -/
def step (num : String → Option Int) (s : State) (e : Event) : State × List Req :=
  match e with
  | Event.estart env => (startGame s env, [Req.getStart])
  | Event.ereset env => (resetGame s env, [Req.getReset])
  | Event.einput v => ({ s with value := v }, [])
  | Event.eguess env => submitGuess num s env

/-- Run a list of events from a state, keeping only the state. -/
def runFrom (num : String → Option Int) (s : State) : List Event → State
  | [] => s
  | e :: es => runFrom num (step num s e).1 es

/-- Run a list of events from the initial state. -/
def run (num : String → Option Int) (es : List Event) : State :=
  runFrom num initState es

/-- A concrete instance of the `Number(value)` semantics that agrees with
JS on the unsigned decimal-digit strings used in concrete runs. -/
def decNum (s : String) : Option Int :=
  let cs := s.toList
  if cs.isEmpty then none
  else if cs.all Char.isDigit then
    some (Int.ofNat (cs.foldl (fun a c => a * 10 + (c.toNat - 48)) 0))
  else none

example : decNum "500" = some 500 := by decide

example : decNum "abc" = none := by decide

/-- A parsed JSON object with none of the five observed fields. -/
def emptyObj : JsonObj :=
  JsonObj.mk none none none none none

/-- A 2xx JSON response with an empty object body. -/
def okStartResp : RawResponse :=
  RawResponse.mk true 200 (some "application/json") (some emptyObj) ""

/-- A 2xx JSON response with body `{"feedback":"TOO_LOW"}`. -/
def tooLowResp : RawResponse :=
  RawResponse.mk true 200 (some "application/json")
    (some (JsonObj.mk (some (JVal.str "TOO_LOW")) none none none none)) ""

/-- A 2xx JSON response with body `{"feedback":"CORRECT"}`. -/
def correctResp : RawResponse :=
  RawResponse.mk true 200 (some "application/json")
    (some (JsonObj.mk (some (JVal.str "CORRECT")) none none none none)) ""

/-- A 500 JSON response with body `{"error":"session expired"}`. -/
def expiredResp : RawResponse :=
  RawResponse.mk false 500 (some "application/json")
    (some (JsonObj.mk none none none (some (JVal.str "session expired")) none)) ""

/-- A 500 response with no content type and raw text body `"boom"`. -/
def boomResp : RawResponse :=
  RawResponse.mk false 500 none none "boom"

/-- A started session with `"500"` typed into the input field. -/
def activeState : State :=
  State.mk true "500" "" "" 0 false false

/-- A started session already finished by a CORRECT guess. -/
def finishedState : State :=
  State.mk true "500" "" "" 3 false true

/-- C5: the response interpreter never raises — for every raw transport
response (any status, any content type including absent, any body
including unparsable JSON) the classification resolves to one of the
three `Outcome` variants: a `Feedback`, a `Message`, or an `Error`. -/
theorem interpret_classifies (res : RawResponse) :
    (∃ fb, interpret res = Outcome.feedback fb) ∨
    (∃ t, interpret res = Outcome.message t) ∨
    (∃ t, interpret res = Outcome.error t) := by
  cases hok : (readBody res).ok
  · exact Or.inr (Or.inr ⟨(readBody res).err.getD "", by simp [interpret, hok]⟩)
  · cases hfb : toFeedback (readBody res) with
    | none =>
      exact Or.inr (Or.inl ⟨fallbackText (readBody res), by simp [interpret, hok, hfb]⟩)
    | some fb =>
      exact Or.inl ⟨fb, by simp [interpret, hok, hfb]⟩

/-- C3: a valid guess whose response classifies as a `Feedback` outcome
increments the guess counter by exactly one, sets `finished` to whether
the feedback is CORRECT, and shows the message
`"<Label>. Total guess <new count>"`, with the label mapping
TOO_HIGH → "Too High", TOO_LOW → "Too Low", CORRECT → "Correct". -/
theorem submitGuess_feedback_updates (num : String → Option Int) (s : State)
    (r : RawResponse) (n : Int) (fb : Feedback)
    (hb : isBlank s.value = false) (hn : num s.value = some n)
    (h0 : ¬ n < 0) (h1 : ¬ n > 1000)
    (hok : (readBody r).ok = true)
    (hfb : toFeedback (readBody r) = some fb) :
    (submitGuess num s (TResult.resp r)).1.tries = s.tries + 1 ∧
    (submitGuess num s (TResult.resp r)).1.finished = (fb == Feedback.CORRECT) ∧
    (submitGuess num s (TResult.resp r)).1.msg =
      labelFor fb ++ ". Total guess " ++ toString (s.tries + 1) ∧
    labelFor Feedback.TOO_HIGH = "Too High" ∧
    labelFor Feedback.TOO_LOW = "Too Low" ∧
    labelFor Feedback.CORRECT = "Correct" := by
  simp [submitGuess, hb, hn, h0, h1, guessBegin, guessResolve, hok, hfb]
  cases fb <;> simp [labelFor]

/-- Witness for C3 at the spec's round-trip example: a 200 JSON
response `{"feedback":"TOO_LOW"}` on a fresh active session. -/
theorem submitGuess_feedback_updates_witness :
    (submitGuess decNum activeState (TResult.resp tooLowResp)).1.tries =
      activeState.tries + 1 ∧
    (submitGuess decNum activeState (TResult.resp tooLowResp)).1.finished =
      (Feedback.TOO_LOW == Feedback.CORRECT) ∧
    (submitGuess decNum activeState (TResult.resp tooLowResp)).1.msg =
      labelFor Feedback.TOO_LOW ++ ". Total guess " ++ toString (activeState.tries + 1) ∧
    labelFor Feedback.TOO_HIGH = "Too High" ∧
    labelFor Feedback.TOO_LOW = "Too Low" ∧
    labelFor Feedback.CORRECT = "Correct" :=
  submitGuess_feedback_updates decNum activeState tooLowResp 500 Feedback.TOO_LOW
    (by decide) (by decide) (by decide) (by decide) (by decide) (by decide)

/-- A started session with blank (whitespace-only) input. -/
def blankState : State :=
  State.mk true " " "" "" 2 false false

/-- A started session with non-numeric input. -/
def nanState : State :=
  State.mk true "abc" "" "" 2 false false

/-- A started session with the out-of-range input `"1001"`. -/
def bigState : State :=
  State.mk true "1001" "" "" 2 false false

/-- C4: a valid guess whose response classifies as an `Error` outcome
leaves the guess counter unchanged, stores the classified error text,
and sets no message; a thrown transport failure also never increments
the counter. -/
theorem submitGuess_error_keeps_count (num : String → Option Int) (s : State)
    (r : RawResponse) (n : Int) (m : Option String)
    (hb : isBlank s.value = false) (hn : num s.value = some n)
    (h0 : ¬ n < 0) (h1 : ¬ n > 1000)
    (hok : (readBody r).ok = false) :
    (submitGuess num s (TResult.resp r)).1.tries = s.tries ∧
    (submitGuess num s (TResult.resp r)).1.error = (readBody r).err.getD "" ∧
    (submitGuess num s (TResult.resp r)).1.msg = "" ∧
    (submitGuess num s (TResult.exn m)).1.tries = s.tries := by
  simp [submitGuess, hb, hn, h0, h1, guessBegin, guessResolve, hok]

/-- Witness for C4 at the spec's example: HTTP 500 with JSON body
`{"error":"session expired"}` on an active session. -/
theorem submitGuess_error_keeps_count_witness :
    (submitGuess decNum activeState (TResult.resp expiredResp)).1.tries =
      activeState.tries ∧
    (submitGuess decNum activeState (TResult.resp expiredResp)).1.error =
      (readBody expiredResp).err.getD "" ∧
    (submitGuess decNum activeState (TResult.resp expiredResp)).1.msg = "" ∧
    (submitGuess decNum activeState (TResult.exn none)).1.tries =
      activeState.tries :=
  submitGuess_error_keeps_count decNum activeState expiredResp 500 none
    (by decide) (by decide) (by decide) (by decide) (by decide)

/-- C7: local validation — blank, non-integer, or out-of-range input
issues no transport call, stores the validation error text, and leaves
the counter unchanged; a valid integer in `[0, 1000]` issues exactly
one submit call. -/
theorem submitGuess_validation (num : String → Option Int) (s : State)
    (env : TResult) (n : Int) :
    (isBlank s.value = true →
      (submitGuess num s env).2 = [] ∧
      (submitGuess num s env).1.error = "Please enter a number" ∧
      (submitGuess num s env).1.tries = s.tries) ∧
    (isBlank s.value = false → num s.value = none →
      (submitGuess num s env).2 = [] ∧
      (submitGuess num s env).1.error = "Enter an integer between 0 and 1000" ∧
      (submitGuess num s env).1.tries = s.tries) ∧
    (isBlank s.value = false → num s.value = some n → (n < 0 ∨ n > 1000) →
      (submitGuess num s env).2 = [] ∧
      (submitGuess num s env).1.error = "Enter an integer between 0 and 1000" ∧
      (submitGuess num s env).1.tries = s.tries) ∧
    (isBlank s.value = false → num s.value = some n → ¬ n < 0 → ¬ n > 1000 →
      (submitGuess num s env).2 = [Req.submit n]) := by
  refine ⟨?_, ?_, ?_, ?_⟩
  · intro hb
    simp [submitGuess, hb]
  · intro hb hn
    simp [submitGuess, hb, hn]
  · intro hb hn hr
    have : (n < 0 || n > 1000) = true := by
      rcases hr with h | h <;> simp [h]
    simp [submitGuess, hb, hn, this]
  · intro hb hn h0 h1
    simp [submitGuess, hb, hn, h0, h1]

/-- Witness for C7: blank, non-integer, out-of-range, and valid inputs
on concrete states. -/
theorem submitGuess_validation_witness :
    ((submitGuess decNum blankState (TResult.exn none)).2 = [] ∧
      (submitGuess decNum blankState (TResult.exn none)).1.error =
        "Please enter a number" ∧
      (submitGuess decNum blankState (TResult.exn none)).1.tries =
        blankState.tries) ∧
    ((submitGuess decNum nanState (TResult.exn none)).2 = [] ∧
      (submitGuess decNum nanState (TResult.exn none)).1.error =
        "Enter an integer between 0 and 1000" ∧
      (submitGuess decNum nanState (TResult.exn none)).1.tries =
        nanState.tries) ∧
    ((submitGuess decNum bigState (TResult.exn none)).2 = [] ∧
      (submitGuess decNum bigState (TResult.exn none)).1.error =
        "Enter an integer between 0 and 1000" ∧
      (submitGuess decNum bigState (TResult.exn none)).1.tries =
        bigState.tries) ∧
    (submitGuess decNum activeState (TResult.resp tooLowResp)).2 =
      [Req.submit 500] :=
  ⟨(submitGuess_validation decNum blankState (TResult.exn none) 0).1 (by decide),
   (submitGuess_validation decNum nanState (TResult.exn none) 0).2.1
     (by decide) (by decide),
   (submitGuess_validation decNum bigState (TResult.exn none) 1001).2.2.1
     (by decide) (by decide) (Or.inr (by decide)),
   (submitGuess_validation decNum activeState (TResult.resp tooLowResp) 500).2.2.2
     (by decide) (by decide) (by decide) (by decide)⟩

/-- C9: `loading` is true at the moment the transport call of `startGame`
or of a valid `submitGuess` is issued, and is false again on every
completion path — ok response, error response, or thrown failure. -/
theorem pending_cleared (num : String → Option Int) (s : State) (env : TResult)
    (n : Int) :
    (startBegin s).loading = true ∧
    (startGame s env).loading = false ∧
    (guessBegin s).loading = true ∧
    (isBlank s.value = false → num s.value = some n → ¬ n < 0 → ¬ n > 1000 →
      (submitGuess num s env).1.loading = false) := by
  refine ⟨rfl, ?_, rfl, ?_⟩
  · cases env with
    | exn m => rfl
    | resp r =>
      cases hok : (readBody r).ok <;>
        simp [startGame, startResolve, startBegin, hok]
  · intro hb hn h0 h1
    cases env with
    | exn m => simp [submitGuess, hb, hn, h0, h1, guessResolve]
    | resp r =>
      cases hok : (readBody r).ok <;>
        cases hfb : toFeedback (readBody r) <;>
          simp [submitGuess, hb, hn, h0, h1, guessResolve, guessBegin, hok, hfb]

/-- Witness for C9 on a thrown transport failure during a valid guess
and during start. -/
theorem pending_cleared_witness :
    (startBegin activeState).loading = true ∧
    (startGame activeState (TResult.exn none)).loading = false ∧
    (guessBegin activeState).loading = true ∧
    (submitGuess decNum activeState (TResult.exn none)).1.loading = false :=
  ⟨(pending_cleared decNum activeState (TResult.exn none) 500).1,
   (pending_cleared decNum activeState (TResult.exn none) 500).2.1,
   (pending_cleared decNum activeState (TResult.exn none) 500).2.2.1,
   (pending_cleared decNum activeState (TResult.exn none) 500).2.2.2
     (by decide) (by decide) (by decide) (by decide)⟩

/-- C10: a successful guess overwrites `finished` unconditionally, so a
non-CORRECT classification (non-CORRECT feedback or an unrecognized
message) on an already-finished session sets `finished` back to false. -/
theorem submitGuess_overwrites_finished (num : String → Option Int) (s : State)
    (r : RawResponse) (n : Int)
    (hb : isBlank s.value = false) (hn : num s.value = some n)
    (h0 : ¬ n < 0) (h1 : ¬ n > 1000)
    (hfin : s.finished = true)
    (hok : (readBody r).ok = true)
    (hfb : toFeedback (readBody r) ≠ some Feedback.CORRECT) :
    (submitGuess num s (TResult.resp r)).1.finished = false := by
  simp [submitGuess, hb, hn, h0, h1, guessBegin, guessResolve, hok]
  exact hfb

/-- Witness for C10: a TOO_LOW response on a session finished by a
previous CORRECT guess. -/
theorem submitGuess_overwrites_finished_witness :
    (submitGuess decNum finishedState (TResult.resp tooLowResp)).1.finished =
      false :=
  submitGuess_overwrites_finished decNum finishedState tooLowResp 500
    (by decide) (by decide) (by decide) (by decide) (by decide) (by decide)
    (by decide)

/-- A parsed body `{message: "hello", result: "TOO_LOW"}`. -/
def shadowObj : JsonObj :=
  JsonObj.mk none (some (JVal.str "hello")) (some (JVal.str "TOO_LOW")) none none

/-- A 2xx JSON response whose body is `shadowObj`. -/
def shadowResp : RawResponse :=
  RawResponse.mk true 200 (some "application/json") (some shadowObj) ""

/-- Counterexample to C1: on the 2xx JSON body
`{message: "hello", result: "TOO_LOW"}` the interpreter yields the
`Message` outcome `"hello"`, not `Feedback(TOO_LOW)` — the `message`
field is selected whenever it is a string, not only when it is one of
the three feedback literals. -/
theorem message_shadows_result :
    interpret shadowResp = Outcome.message "hello" ∧
    interpret shadowResp ≠ Outcome.feedback Feedback.TOO_LOW := by decide

/-- Recognition of the three feedback literals by exact string
comparison, as the selected raw value is tested in `toFeedback`. -/
def feedbackOfLiteral (s : String) : Option Feedback :=
  if s = "TOO_HIGH" then some Feedback.TOO_HIGH
  else if s = "TOO_LOW" then some Feedback.TOO_LOW
  else if s = "CORRECT" then some Feedback.CORRECT
  else none

/-- C1 amended: on a parsed 2xx JSON body the raw value is selected with
priority `feedback`, then `message` whenever its value is a string (not
only when it is a feedback literal), then `result` whenever its value
is a string; the selected string yields a `Feedback` outcome exactly
when it is one of the three literals, and otherwise no feedback is
recognized. -/
theorem toFeedback_priority (d : JsonObj) (s : String) :
    (d.feedback = some (JVal.str s) →
      toFeedback (Body.mk true (some d) none none) = feedbackOfLiteral s) ∧
    (nullish d.feedback = true → d.message = some (JVal.str s) →
      toFeedback (Body.mk true (some d) none none) = feedbackOfLiteral s) ∧
    (nullish d.feedback = true → strOnly d.message = none →
      d.result = some (JVal.str s) →
      toFeedback (Body.mk true (some d) none none) = feedbackOfLiteral s) := by
  refine ⟨?_, ?_, ?_⟩
  · intro hf
    simp [toFeedback, jcoalesce, hf, nullish, strOnly, feedbackOfLiteral]
  · intro hnf hm
    rcases hf : d.feedback with _ | v
    · simp [toFeedback, jcoalesce, hf, hm, nullish, strOnly, feedbackOfLiteral]
    · rcases v with s' | _ | r
      · rw [hf] at hnf; simp [nullish] at hnf
      · simp [toFeedback, jcoalesce, hf, hm, nullish, strOnly, feedbackOfLiteral]
      · rw [hf] at hnf; simp [nullish] at hnf
  · intro hnf hm hr
    rcases hf : d.feedback with _ | v
    · rcases hmm : d.message with _ | w
      · simp [toFeedback, jcoalesce, hf, hmm, hr, nullish, strOnly, feedbackOfLiteral]
      · rcases w with s' | _ | q
        · rw [hmm] at hm; simp [strOnly] at hm
        · simp [toFeedback, jcoalesce, hf, hmm, hr, nullish, strOnly, feedbackOfLiteral]
        · simp [toFeedback, jcoalesce, hf, hmm, hr, nullish, strOnly, feedbackOfLiteral]
    · rcases v with s' | _ | r
      · rw [hf] at hnf; simp [nullish] at hnf
      · rcases hmm : d.message with _ | w
        · simp [toFeedback, jcoalesce, hf, hmm, hr, nullish, strOnly, feedbackOfLiteral]
        · rcases w with s' | _ | q
          · rw [hmm] at hm; simp [strOnly] at hm
          · simp [toFeedback, jcoalesce, hf, hmm, hr, nullish, strOnly, feedbackOfLiteral]
          · simp [toFeedback, jcoalesce, hf, hmm, hr, nullish, strOnly, feedbackOfLiteral]
      · rw [hf] at hnf; simp [nullish] at hnf

/-- Witness for C1 amended: the shadowed body selects the non-literal
string `"hello"` (yielding no feedback), and a literal `feedback` field
is recognized. -/
theorem toFeedback_priority_witness :
    toFeedback (Body.mk true (some shadowObj) none none) =
      feedbackOfLiteral "hello" ∧
    toFeedback (Body.mk true
      (some (JsonObj.mk (some (JVal.str "TOO_HIGH")) none none none none))
      none none) = feedbackOfLiteral "TOO_HIGH" :=
  ⟨(toFeedback_priority shadowObj "hello").2.1 (by decide) (by decide),
   (toFeedback_priority
     (JsonObj.mk (some (JVal.str "TOO_HIGH")) none none none none)
     "TOO_HIGH").1 (by decide)⟩

/-- A 500 JSON response whose `error` field is the number `42` and whose
raw text body is `"raw body"`. -/
def numErrResp : RawResponse :=
  RawResponse.mk false 500 (some "application/json")
    (some (JsonObj.mk none none none (some (JVal.other "42")) none)) "raw body"

/-- Counterexample to C2: on a non-2xx JSON body whose first present
field among `error`/`message`/`detail` has a non-string value, the code
synthesizes `"HTTP <status>"` directly; it does not fall back to the
trimmed raw text body. -/
theorem nonstring_error_field_skips_text :
    (readBody numErrResp).err = some "HTTP 500" ∧
    jsTrim numErrResp.text = "raw body" ∧
    (readBody numErrResp).err ≠ some "raw body" ∧
    interpret numErrResp = Outcome.error "HTTP 500" := by decide

/-- Modelled from the spec's error-text description, amended at one
point: when the content-type claims JSON and the body parses, the first
non-nullish field among `error`, `message`, `detail` gives the text if
its value is a string, and otherwise the text is `"HTTP <status>"`
directly (not the raw text body); when parsing fails or the
content-type is not JSON, the text is the trimmed raw body, or
`"HTTP <status>"` when that is empty. -/
def specErrText (res : RawResponse) : String :=
  if strIncludes (ctOf res) "application/json" then
    match res.json with
    | some j =>
      match jcoalesce j.error (jcoalesce j.message j.detail) with
      | some (JVal.str s) => s
      | _ => httpText res.status
    | none =>
      let t := jsTrim res.text
      if t == "" then httpText res.status else t
  else
    let t := jsTrim res.text
    if t == "" then httpText res.status else t

/-- The `ok` flag of `readBody` mirrors the response's `ok` flag. -/
theorem readBody_ok_eq (res : RawResponse) : (readBody res).ok = res.ok := by
  unfold readBody
  cases hok : res.ok <;> cases hj : res.json <;>
    by_cases hct : strIncludes (ctOf res) "application/json" = true <;>
      simp [hok, hj, hct]

/-- C2 amended: every non-2xx response classifies as an `Error` outcome
whose text is `specErrText` — the first present string-valued field
among `error`/`message`/`detail` of a parsed JSON body, `"HTTP
<status>"` when that field's value is not a string, and the trimmed raw
text (or `"HTTP <status>"` when empty) when the body is not parsed
JSON. -/
theorem interpret_error_text (res : RawResponse) (h : res.ok = false) :
    interpret res = Outcome.error (specErrText res) := by
  have hok : (readBody res).ok = false := by rw [readBody_ok_eq]; exact h
  have herr : (readBody res).err.getD "" = specErrText res := by
    unfold readBody specErrText
    cases hj : res.json <;>
      by_cases hct : strIncludes (ctOf res) "application/json" = true <;>
        simp [h, hj, hct]
  simp [interpret, hok, herr]

/-- Witness for C2 amended at the non-string `error` field response. -/
theorem interpret_error_text_witness :
    interpret numErrResp = Outcome.error (specErrText numErrResp) :=
  interpret_error_text numErrResp (by decide)

/-- The event trace: successful start, type `"500"`, guess answered
TOO_LOW, then a reset whose transport call fails with HTTP 500. -/
def failedResetTrace : List Event :=
  [Event.estart (TResult.resp okStartResp), Event.einput "500",
   Event.eguess (TResult.resp tooLowResp), Event.ereset (TResult.resp boomResp)]

/-- Counterexample to C6: after a failing reset issued while the message
of a prior guess is displayed, both the old message and the new error
are set — `resetGame` clears only `error` on entry, never `msg`. -/
theorem failed_reset_keeps_message :
    (run decNum failedResetTrace).msg = "Too Low. Total guess 1" ∧
    (run decNum failedResetTrace).error = "boom" := by decide

/-- C6 amended: `startGame` and `submitGuess` clear both `error` and
`msg` before computing their outcome (their result does not depend on
the prior values), while `resetGame` clears only `error` — so a failing
reset leaves the prior message in place next to the new error. -/
theorem intent_clear_discipline (num : String → Option Int) (s : State)
    (env : TResult) (r : RawResponse) :
    startGame s env = startGame { s with error := "", msg := "" } env ∧
    submitGuess num s env = submitGuess num { s with error := "", msg := "" } env ∧
    resetGame s env = resetGame { s with error := "" } env ∧
    ((readBody r).ok = false →
      (resetGame s (TResult.resp r)).msg = s.msg ∧
      (resetGame s (TResult.resp r)).error = (readBody r).err.getD "") := by
  refine ⟨rfl, rfl, rfl, ?_⟩
  intro hok
  simp [resetGame, hok]

/-- A started session displaying the message of a prior guess. -/
def msgState : State :=
  State.mk true "" "" "Too Low. Total guess 1" 1 false false

/-- Witness for C6 amended: a failing reset on a session with a
displayed message keeps the message and sets the error; a start is
insensitive to the prior message and error. -/
theorem intent_clear_discipline_witness :
    (resetGame msgState (TResult.resp boomResp)).msg = msgState.msg ∧
    (resetGame msgState (TResult.resp boomResp)).error =
      (readBody boomResp).err.getD "" ∧
    startGame msgState (TResult.exn none) =
      startGame { msgState with error := "", msg := "" } (TResult.exn none) :=
  ⟨((intent_clear_discipline decNum msgState (TResult.exn none) boomResp).2.2.2
      (by decide)).1,
   ((intent_clear_discipline decNum msgState (TResult.exn none) boomResp).2.2.2
      (by decide)).2,
   (intent_clear_discipline decNum msgState (TResult.exn none) boomResp).1⟩

/-- Whether an event is a guess whose transport response classifies as
`Feedback` CORRECT. -/
def correctGuessEventB : Event → Bool
  | Event.eguess (TResult.resp r) =>
    (readBody r).ok && (toFeedback (readBody r) == some Feedback.CORRECT)
  | _ => false

/-- Any single step that ends with `finished = true` either started from
a finished state or is a CORRECT-classified guess. -/
theorem step_finished_source (num : String → Option Int) (s : State) (e : Event)
    (h : (step num s e).1.finished = true) :
    s.finished = true ∨ correctGuessEventB e = true := by
  cases e with
  | estart env =>
    left
    cases env with
    | exn m => simpa [step, startGame, startResolve, startBegin] using h
    | resp r =>
      cases hok : (readBody r).ok
      · simpa [step, startGame, startResolve, startBegin, hok] using h
      · simp [step, startGame, startResolve, startBegin, hok] at h
  | ereset env =>
    left
    cases env with
    | exn m => simpa [step, resetGame] using h
    | resp r =>
      cases hok : (readBody r).ok
      · simpa [step, resetGame, hok] using h
      · simp [step, resetGame, hok] at h
  | einput v =>
    left
    simpa [step] using h
  | eguess env =>
    by_cases hb : isBlank s.value = true
    · left; simpa [step, submitGuess, hb] using h
    · cases hn : num s.value with
      | none =>
        left; simpa [step, submitGuess, hb, hn] using h
      | some n =>
        by_cases hr : (decide (n < 0) || decide (n > 1000)) = true
        · left; simpa [step, submitGuess, hb, hn, hr] using h
        · cases env with
          | exn m =>
            left
            simpa [step, submitGuess, hb, hn, hr, guessResolve, guessBegin] using h
          | resp r =>
            cases hok : (readBody r).ok
            · left
              simpa [step, submitGuess, hb, hn, hr, guessResolve, guessBegin, hok]
                using h
            · right
              simp [step, submitGuess, hb, hn, hr, guessResolve, guessBegin, hok] at h
              simp [correctGuessEventB, hok, h]

/-- A run that ends finished either began finished or contains a
CORRECT-classified guess. -/
theorem runFrom_finished_source (num : String → Option Int) :
    ∀ (es : List Event) (s : State), (runFrom num s es).finished = true →
      s.finished = true ∨ es.any correctGuessEventB = true := by
  intro es
  induction es with
  | nil => intro s h; exact Or.inl h
  | cons e es ih =>
    intro s h
    rcases ih (step num s e).1 (by simpa [runFrom] using h) with h1 | h2
    · rcases step_finished_source num s e h1 with ha | hb
      · exact Or.inl ha
      · exact Or.inr (by simp [List.any_cons, hb])
    · exact Or.inr (by simp [List.any_cons, h2])

/-- The trace: successful start, type `"1"`, guess answered CORRECT
(finishing the session), then a start whose transport call throws. -/
def failedStartTrace : List Event :=
  [Event.estart (TResult.resp okStartResp), Event.einput "1",
   Event.eguess (TResult.resp correctResp), Event.estart (TResult.exn none)]

/-- Counterexample to C8: a failing start leaves `finished = true` from
the earlier CORRECT guess — start does not always set finished to
false. -/
theorem failed_start_keeps_finished :
    (run decNum failedStartTrace).finished = true := by decide

/-- C8 amended: `finished = true` in a reachable state only after some
guess in the trace was classified as `Feedback` CORRECT; a successful
start or reset sets `finished` to false while a failing one leaves it
unchanged (so start/reset do not always set it to false); and `tries`
increments exactly once per successfully-classified guess outcome,
never on a transport failure. -/
theorem finished_count_discipline (num : String → Option Int) (s : State)
    (es : List Event) (r : RawResponse) (m : Option String) (n : Int) :
    ((runFrom num s es).finished = true →
      s.finished = true ∨ es.any correctGuessEventB = true) ∧
    ((run num es).finished = true → es.any correctGuessEventB = true) ∧
    ((readBody r).ok = true →
      (startGame s (TResult.resp r)).finished = false ∧
      (resetGame s (TResult.resp r)).finished = false) ∧
    ((readBody r).ok = false →
      (startGame s (TResult.resp r)).finished = s.finished ∧
      (resetGame s (TResult.resp r)).finished = s.finished) ∧
    ((startGame s (TResult.exn m)).finished = s.finished ∧
      (resetGame s (TResult.exn m)).finished = s.finished) ∧
    (isBlank s.value = false → num s.value = some n → ¬ n < 0 → ¬ n > 1000 →
      ((readBody r).ok = true →
        (submitGuess num s (TResult.resp r)).1.tries = s.tries + 1) ∧
      ((readBody r).ok = false →
        (submitGuess num s (TResult.resp r)).1.tries = s.tries) ∧
      (submitGuess num s (TResult.exn m)).1.tries = s.tries) := by
  refine ⟨runFrom_finished_source num es s, ?_, ?_, ?_, ?_, ?_⟩
  · intro h
    rcases runFrom_finished_source num es initState (by simpa [run] using h)
      with h1 | h2
    · simp [initState] at h1
    · exact h2
  · intro hok
    constructor <;> simp [startGame, startResolve, startBegin, resetGame, hok]
  · intro hok
    constructor <;> simp [startGame, startResolve, startBegin, resetGame, hok]
  · constructor <;> simp [startGame, startResolve, startBegin, resetGame]
  · intro hb hn h0 h1
    refine ⟨?_, ?_, ?_⟩
    · intro hok
      simp [submitGuess, hb, hn, h0, h1, guessResolve, guessBegin, hok]
    · intro hok
      simp [submitGuess, hb, hn, h0, h1, guessResolve, guessBegin, hok]
    · simp [submitGuess, hb, hn, h0, h1, guessResolve, guessBegin]

/-- The trace: successful start, type `"1"`, guess answered CORRECT. -/
def correctGuessTrace : List Event :=
  [Event.estart (TResult.resp okStartResp), Event.einput "1",
   Event.eguess (TResult.resp correctResp)]

/-- Witness for C8 amended: a finishing run contains a CORRECT guess,
successful start/reset unfinish, a thrown start preserves `finished`,
and a TOO_LOW-classified guess increments the counter by one. -/
theorem finished_count_discipline_witness :
    correctGuessTrace.any correctGuessEventB = true ∧
    (startGame activeState (TResult.resp okStartResp)).finished = false ∧
    (resetGame activeState (TResult.resp okStartResp)).finished = false ∧
    (startGame finishedState (TResult.exn none)).finished =
      finishedState.finished ∧
    (submitGuess decNum activeState (TResult.resp tooLowResp)).1.tries =
      activeState.tries + 1 :=
  ⟨(finished_count_discipline decNum initState correctGuessTrace okStartResp
      none 500).2.1 (by decide),
   ((finished_count_discipline decNum activeState [] okStartResp none
      500).2.2.1 (by decide)).1,
   ((finished_count_discipline decNum activeState [] okStartResp none
      500).2.2.1 (by decide)).2,
   ((finished_count_discipline decNum finishedState [] okStartResp none
      500).2.2.2.2.1).1,
   ((finished_count_discipline decNum activeState [] tooLowResp none
      500).2.2.2.2.2 (by decide) (by decide) (by decide) (by decide)).1
     (by decide)⟩
